import Mathlib

/-!
Verification of the generative-media client in `src/services/geminiService.ts`:
the binary-to-payload encoder (`fileToGenerativePart`), the edit client
(`editImage`) and the asynchronous video client (`generateVideo`) with its
poll loop.  Remote calls and the browser `FileReader` are modelled as
oracles supplied through an environment record; every observable side
effect (progress callback, file read, network call) is recorded in an
event trace.
-/

namespace GeminiService

/-! ## Base64, as produced by the browser's `readAsDataURL` -/

/-- The standard base64 alphabet, index `n` holding the digit for value `n`. -/
def b64Alphabet : List Char :=
  ['A','B','C','D','E','F','G','H','I','J','K','L','M',
   'N','O','P','Q','R','S','T','U','V','W','X','Y','Z',
   'a','b','c','d','e','f','g','h','i','j','k','l','m',
   'n','o','p','q','r','s','t','u','v','w','x','y','z',
   '0','1','2','3','4','5','6','7','8','9','+','/']

/-- Digit character for a 6-bit value. -/
def b64Char (n : Nat) : Char := b64Alphabet.getD n 'A'

/-- Value of a base64 digit character (0 for characters outside the alphabet). -/
def b64Val (c : Char) : Nat :=
  if 65 ≤ c.toNat ∧ c.toNat ≤ 90 then c.toNat - 65
  else if 97 ≤ c.toNat ∧ c.toNat ≤ 122 then c.toNat - 97 + 26
  else if 48 ≤ c.toNat ∧ c.toNat ≤ 57 then c.toNat - 48 + 52
  else if c = '+' then 62
  else if c = '/' then 63
  else 0

/-- Base64 encoding of a byte list (each byte `< 256`), with `=` padding,
exactly as the browser produces inside a `data:` URL. -/
def base64Encode : List Nat → List Char
  | [] => []
  | [a] => [b64Char (a / 4), b64Char (a % 4 * 16), '=', '=']
  | [a, b] => [b64Char (a / 4), b64Char (a % 4 * 16 + b / 16), b64Char (b % 16 * 4), '=']
  | a :: b :: c :: rest =>
      b64Char (a / 4) :: b64Char (a % 4 * 16 + b / 16) ::
      b64Char (b % 16 * 4 + c / 64) :: b64Char (c % 64) :: base64Encode rest

/-- Base64 decoding, the inverse reading of `base64Encode`'s output. -/
def base64Decode : List Char → List Nat
  | c1 :: c2 :: c3 :: c4 :: rest =>
      if c3 = '=' then
        [b64Val c1 * 4 + b64Val c2 / 16]
      else if c4 = '=' then
        [b64Val c1 * 4 + b64Val c2 / 16, b64Val c2 % 16 * 16 + b64Val c3 / 4]
      else
        (b64Val c1 * 4 + b64Val c2 / 16) ::
        (b64Val c2 % 16 * 16 + b64Val c3 / 4) ::
        (b64Val c3 % 4 * 64 + b64Val c4) ::
        base64Decode rest
  | _ => []

/-! ## JavaScript string `split` on a single-character separator -/

/-- Accumulator-passing core of JavaScript's `String.prototype.split` with a
one-character separator. -/
def jsSplitAux (sep : Char) : List Char → List Char → List (List Char)
  | [], acc => [acc.reverse]
  | c :: rest, acc =>
      if c = sep then acc.reverse :: jsSplitAux sep rest []
      else jsSplitAux sep rest (c :: acc)

/-- JavaScript's `s.split(sep)` for a single-character separator. -/
def jsSplitChar (sep : Char) (s : List Char) : List (List Char) := jsSplitAux sep s []

/-! ## The file encoder `fileToGenerativePart` -/

/-- Outcome of the browser `FileReader` used by `fileToGenerativePart`:
either `onerror` fired, or `onloadend` fired with `reader.result` being a
string (`loaded (some s)`) or a non-string value (`loaded none`). -/
inductive ReaderOutcome where
  | errored
  | loaded (result : Option (List Char))
deriving DecidableEq

/-- The `inlineData` payload built by `fileToGenerativePart`: the base64
`data` field (absent when `split(',')[1]` was `undefined`) and the file's
declared `mimeType`, taken verbatim. -/
structure InlinePayload where
  data : Option (List Char)
  mimeType : String
deriving DecidableEq

/-- `fileToGenerativePart` from `geminiService.ts`, as a function of the
file's declared type and of the `FileReader`'s outcome: a string result
resolves with `reader.result.split(',')[1]` paired with `file.type`;
a read error or a non-string result rejects. -/
def fileToGenerativePart (fileType : String) (outcome : ReaderOutcome) :
    Except String InlinePayload :=
  match outcome with
  | .errored => .error "reader error"
  | .loaded none => .error "Failed to read file as base64 string."
  | .loaded (some s) => .ok ⟨(jsSplitChar ',' s)[1]?, fileType⟩

/-- The browser's `readAsDataURL` on a successful read of a file with the
given bytes and declared type: `data:<type>;base64,<base64 of bytes>`. -/
def readAsDataURL (bytes : List Nat) (fileType : String) : ReaderOutcome :=
  .loaded (some ("data:".toList ++ fileType.toList ++ ";base64".toList
                  ++ ',' :: base64Encode bytes))

/-- Modelled from the spec's words for claim C10 only: "the substring after
the first comma" of a string, absent when there is no comma.  Compared
against what the code actually computes (`split(',')[1]`). -/
def specAfterFirstComma : List Char → Option (List Char)
  | [] => none
  | c :: rest => if c = ',' then some rest else specAfterFirstComma rest

/-! ## Errors, events and progress messages -/

/-- Error conditions of the two clients.  `typeError` models the JavaScript
`TypeError` raised by dereferencing `undefined` (e.g. `candidates[0].content`
when `candidates` is absent or empty). -/
inductive SvcError where
  | auth
  | encoding
  | remote (msg : String)
  | noImageData
  | noVideoLink
  | typeError
deriving DecidableEq

/-- Progress messages passed to the `onProgress` callback of
`generateVideo`, one constructor per distinct source string; `checking`
carries the `pollCount` interpolated into the message. -/
inductive ProgressMsg where
  | preparing
  | initiating
  | inProgress
  | checking (attempt : Nat)
  | finalizing
deriving DecidableEq

/-- The remote calls the clients can issue. -/
inductive NetCallKind where
  | generateContent
  | generateVideos
  | getVideosOperation
deriving DecidableEq

/-- Observable events of a run, in order: a progress-callback invocation,
the start of a `FileReader` read, or a remote call. -/
inductive Event where
  | progress (m : ProgressMsg)
  | readFile (which : String)
  | netCall (kind : NetCallKind)
deriving DecidableEq

/-- The progress messages of a trace, in order. -/
def progressOf (evs : List Event) : List ProgressMsg :=
  evs.filterMap fun e =>
    match e with
    | .progress m => some m
    | _ => none

/-- Number of status re-fetches (`getVideosOperation` calls) in a trace. -/
def fetchCount (evs : List Event) : Nat :=
  (evs.filter fun e => e = .netCall .getVideosOperation).length

/-- `[ProgressMsg.checking start, …, ProgressMsg.checking (start + k - 1)]`:
`k` consecutive checking messages starting at attempt `start`. -/
def checkList (start k : Nat) : List ProgressMsg :=
  match k with
  | 0 => []
  | k + 1 => .checking start :: checkList (start + 1) k

/-! ## The edit client `editImage` -/

/-- One part of a remote content response; `inlineData = some d` means the
part carries inline image data `d`. -/
structure ContentPart where
  inlineData : Option String
deriving DecidableEq

/-- The `content` of a response candidate. -/
structure CandContent where
  parts : List ContentPart
deriving DecidableEq

/-- One candidate of a remote content response. -/
structure Candidate where
  content : CandContent
deriving DecidableEq

/-- A remote `generateContent` response; `candidates` is optional in the
SDK, `none` modelling an absent list. -/
structure GenContentResponse where
  candidates : Option (List Candidate)
deriving DecidableEq

/-- The scan `for (const part of parts) if (part.inlineData) return …`:
first part carrying inline data. -/
def firstInlineData (parts : List ContentPart) : Option String :=
  parts.findSome? fun p => p.inlineData

/-- All parts of a response across all candidates, in order (used to state
the claims' phrase "part of the response"; the code itself only scans the
first candidate). -/
def allParts (r : GenContentResponse) : List ContentPart :=
  (r.candidates.getD []).flatMap fun c => c.content.parts

/-- Environment of one `editImage` call: the ambient credential, the
image file's declared type, the `FileReader` outcome for it, and the
oracle for the one remote `generateContent` call. -/
structure EditEnv where
  apiKey : Option String
  imageType : String
  imageOutcome : ReaderOutcome
  callResult : Except String GenContentResponse

/-- `editImage` from `geminiService.ts`.  Order of effects, as in the
source: credential check (`getAiClient`), file read/encode, the single
remote call, then the scan of `response.candidates[0].content.parts` for
the first part with `inlineData`.  An absent or empty `candidates` makes
`candidates[0]` `undefined` and the `.content` access raise a `TypeError`. -/
def editImage (env : EditEnv) : List Event × Except SvcError String :=
  match env.apiKey with
  | none => ([], .error .auth)
  | some _ =>
    match fileToGenerativePart env.imageType env.imageOutcome with
    | .error _ => ([.readFile "image"], .error .encoding)
    | .ok _ =>
      let evs := [Event.readFile "image", Event.netCall .generateContent]
      match env.callResult with
      | .error m => (evs, .error (.remote m))
      | .ok resp =>
        match resp.candidates with
        | none => (evs, .error .typeError)
        | some [] => (evs, .error .typeError)
        | some (c :: _) =>
          match firstInlineData c.content.parts with
          | some d => (evs, .ok d)
          | none => (evs, .error .noImageData)

/-! ## The video client `generateVideo` -/

/-- `video` field of a generated-videos entry. -/
structure VideoRef where
  uri : Option String
deriving DecidableEq

/-- One entry of `generatedVideos`. -/
structure GeneratedVideo where
  video : Option VideoRef
deriving DecidableEq

/-- The `response` field of a finished operation. -/
structure VideoResponse where
  generatedVideos : Option (List GeneratedVideo)
deriving DecidableEq

/-- A snapshot of the remote video operation: `done` plus the optional
nested response. -/
structure Operation where
  done : Bool
  response : Option VideoResponse
deriving DecidableEq

/-- `operation.response?.generatedVideos?.[0]?.video?.uri`, each `?.` an
`Option.bind`. -/
def downloadLink (op : Operation) : Option String :=
  ((((op.response.bind fun r => r.generatedVideos).bind List.head?).bind
      fun g => g.video).bind fun v => v.uri)

/-- Result of the poll loop: the final snapshot when a `done` snapshot is
observed, the error message when a status re-fetch fails, or fuel
exhaustion (a modelling artifact standing for a still-running loop). -/
inductive PollResult where
  | finished (op : Operation)
  | failed (msg : String)
  | outOfFuel
deriving DecidableEq

/-- The `while (!operation.done)` loop of `generateVideo`.  Each iteration
increments `pollCount`, emits the checking-status message carrying it,
sleeps, then re-fetches the snapshot via `getVideosOperation` (`polls n`
is the oracle for the `n`-th re-fetch, 0-based); a failed re-fetch
propagates immediately.  `fuel` bounds the number of iterations modelled. -/
def pollLoop (fuel : Nat) (op : Operation) (polls : Nat → Except String Operation)
    (pollCount : Nat) : List Event × PollResult :=
  if op.done then ([], .finished op)
  else
    match fuel with
    | 0 => ([], .outOfFuel)
    | fuel + 1 =>
      match polls pollCount with
      | .error m =>
          ([.progress (.checking (pollCount + 1)), .netCall .getVideosOperation], .failed m)
      | .ok op2 =>
          let rest := pollLoop fuel op2 polls (pollCount + 1)
          (.progress (.checking (pollCount + 1)) :: .netCall .getVideosOperation :: rest.1,
           rest.2)

/-- Outcome of a `generateVideo` run: the returned URL, an error, or fuel
exhaustion (the loop still running). -/
inductive GvOutcome where
  | ok (url : String)
  | err (e : SvcError)
  | outOfFuel
deriving DecidableEq

/-- Environment of one `generateVideo` call: the ambient credential, the
two files' declared types and `FileReader` outcomes, the oracle for the
`generateVideos` submission, and the oracle for the status re-fetches. -/
structure GenEnv where
  apiKey : Option String
  startType : String
  endType : String
  startOutcome : ReaderOutcome
  endOutcome : ReaderOutcome
  submitResult : Except String Operation
  polls : Nat → Except String Operation

/-- `generateVideo` from `geminiService.ts`.  Order of effects, as in the
source: credential check, "preparing" progress, read/encode the start then
the end frame, "initiating" progress, the `generateVideos` submission,
"in progress" progress, the poll loop, "finalizing" progress, then the
extraction of `generatedVideos[0].video.uri`.  The final
`if (!downloadLink)` treats both an absent link and the falsy empty
string as failure. -/
def generateVideo (fuel : Nat) (env : GenEnv) : List Event × GvOutcome :=
  match env.apiKey with
  | none => ([], .err .auth)
  | some key =>
    match fileToGenerativePart env.startType env.startOutcome with
    | .error _ =>
        ([.progress .preparing, .readFile "start"], .err .encoding)
    | .ok _ =>
      match fileToGenerativePart env.endType env.endOutcome with
      | .error _ =>
          ([.progress .preparing, .readFile "start", .readFile "end"], .err .encoding)
      | .ok _ =>
        let evs1 : List Event :=
          [.progress .preparing, .readFile "start", .readFile "end",
           .progress .initiating, .netCall .generateVideos]
        match env.submitResult with
        | .error m => (evs1, .err (.remote m))
        | .ok op0 =>
          let pl := pollLoop fuel op0 env.polls 0
          let evs2 := evs1 ++ Event.progress .inProgress :: pl.1
          match pl.2 with
          | .outOfFuel => (evs2, .outOfFuel)
          | .failed m => (evs2, .err (.remote m))
          | .finished opF =>
            let evs3 := evs2 ++ [Event.progress .finalizing]
            match downloadLink opF with
            | none => (evs3, .err .noVideoLink)
            | some u =>
                if u = "" then (evs3, .err .noVideoLink)
                else (evs3, .ok (u ++ "&key=" ++ key))

/-! ## Concrete environments used by scenario theorems and witnesses -/

/-- A `generateVideo` environment whose submission call fails. -/
def c7SubmitFailEnv : GenEnv where
  apiKey := some "k"
  startType := "image/png"
  endType := "image/png"
  startOutcome := .loaded (some "d,a".toList)
  endOutcome := .loaded (some "d,b".toList)
  submitResult := .error "boom"
  polls := fun _ => .error "boom"

/-- A `generateVideo` environment whose submission succeeds with a
not-yet-done snapshot and whose first poll call fails. -/
def c7PollFailEnv : GenEnv where
  apiKey := some "k"
  startType := "image/png"
  endType := "image/png"
  startOutcome := .loaded (some "d,a".toList)
  endOutcome := .loaded (some "d,b".toList)
  submitResult := .ok ⟨false, none⟩
  polls := fun _ => .error "poll down"

/-- A done snapshot carrying one generated video with uri `u`. -/
def doneOpWith (u : String) : Operation :=
  ⟨true, some ⟨some [⟨some ⟨some u⟩⟩]⟩⟩

/-- Scenario environment for claim C3: submission returns a not-done
snapshot, the first status re-fetch reports not done, the second reports
done with `generatedVideos[0].video.uri = u`. -/
def c3Env (u key : String) : GenEnv where
  apiKey := some key
  startType := "image/png"
  endType := "image/png"
  startOutcome := .loaded (some "data:image/png;base64,QQ==".toList)
  endOutcome := .loaded (some "data:image/png;base64,Qg==".toList)
  submitResult := .ok ⟨false, none⟩
  polls := fun n => if n = 0 then .ok ⟨false, none⟩ else .ok (doneOpWith u)

/-- A `generateVideo` environment with no credential configured. -/
def noKeyGenEnv : GenEnv where
  apiKey := none
  startType := "image/png"
  endType := "image/png"
  startOutcome := .errored
  endOutcome := .errored
  submitResult := .error "unreached"
  polls := fun _ => .error "unreached"

/-- An `editImage` environment with no credential configured. -/
def noKeyEditEnv : EditEnv where
  apiKey := none
  imageType := "image/png"
  imageOutcome := .errored
  callResult := .error "unreached"

/-- A content response whose first candidate has no inline data while its
second candidate does. -/
def c5Resp : GenContentResponse :=
  ⟨some [⟨⟨[⟨none⟩]⟩⟩, ⟨⟨[⟨some "IMG"⟩]⟩⟩]⟩

/-- An `editImage` environment whose remote call returns `c5Resp`. -/
def c5Env : EditEnv where
  apiKey := some "k"
  imageType := "image/png"
  imageOutcome := .loaded (some "d,a".toList)
  callResult := .ok c5Resp

/-- A content response with a present but empty candidates list. -/
def emptyCandResp : GenContentResponse := ⟨some []⟩

/-- A content response whose first candidate lacks inline data and whose
second carries it (same shape as `c5Resp`, for the C9 witness). -/
def twoCandResp : GenContentResponse :=
  ⟨some [⟨⟨[⟨none⟩]⟩⟩, ⟨⟨[⟨some "LATER"⟩]⟩⟩]⟩

/-- An `editImage` environment whose remote call returns the given
response. -/
def editEnvWith (r : GenContentResponse) : EditEnv where
  apiKey := some "k"
  imageType := "image/png"
  imageOutcome := .loaded (some "d,a".toList)
  callResult := .ok r

/-- A `generateVideo` environment whose submission snapshot is already
done but carries no response (no download link). -/
def c6Env : GenEnv where
  apiKey := some "k"
  startType := "image/png"
  endType := "image/png"
  startOutcome := .loaded (some "d,a".toList)
  endOutcome := .loaded (some "d,b".toList)
  submitResult := .ok ⟨true, none⟩
  polls := fun _ => .ok ⟨true, none⟩

/-! ## Base64 and split lemmas -/

theorem b64Val_b64Char : ∀ n, n < 64 → b64Val (b64Char n) = n := by decide

theorem b64Char_ne_eqSign (n : Nat) : b64Char n ≠ '=' := by
  rcases Nat.lt_or_ge n 64 with h | h
  · revert h; revert n; decide
  · unfold b64Char
    rw [List.getD_eq_default _ _ (by simpa [b64Alphabet] using h)]
    decide

theorem b64Char_ne_comma (n : Nat) : b64Char n ≠ ',' := by
  rcases Nat.lt_or_ge n 64 with h | h
  · revert h; revert n; decide
  · unfold b64Char
    rw [List.getD_eq_default _ _ (by simpa [b64Alphabet] using h)]
    decide

/-- No comma ever appears in a base64 encoding. -/
theorem comma_not_mem_base64Encode : ∀ bs : List Nat, ',' ∉ base64Encode bs := by
  intro bs
  induction bs using base64Encode.induct with
  | case1 => simp [base64Encode]
  | case2 a =>
      simp only [base64Encode, List.mem_cons, List.not_mem_nil, or_false]
      refine fun h => ?_
      rcases h with h | h | h | h <;>
        first
          | exact b64Char_ne_comma _ h.symm
          | exact absurd h.symm (by decide)
  | case3 a b =>
      simp only [base64Encode, List.mem_cons, List.not_mem_nil, or_false]
      refine fun h => ?_
      rcases h with h | h | h | h <;>
        first
          | exact b64Char_ne_comma _ h.symm
          | exact absurd h.symm (by decide)
  | case4 a b c rest ih =>
      simp only [base64Encode, List.mem_cons]
      refine fun h => ?_
      rcases h with h | h | h | h | h <;>
        first
          | exact b64Char_ne_comma _ h.symm
          | exact ih h

/-- Base64 round trip: decoding an encoding gives back the original bytes. -/
theorem base64_roundtrip :
    ∀ bs : List Nat, (∀ x ∈ bs, x < 256) → base64Decode (base64Encode bs) = bs := by
  intro bs
  induction bs using base64Encode.induct with
  | case1 => intro _; rfl
  | case2 a =>
      intro hb
      have ha : a < 256 := hb a (by simp)
      rw [base64Encode, base64Decode, if_pos rfl,
          b64Val_b64Char _ (by omega), b64Val_b64Char _ (by omega)]
      simp only [List.cons.injEq, and_true]
      omega
  | case3 a b =>
      intro hb
      have ha : a < 256 := hb a (by simp)
      have hbb : b < 256 := hb b (by simp)
      rw [base64Encode, base64Decode, if_neg (b64Char_ne_eqSign _), if_pos rfl,
          b64Val_b64Char _ (by omega), b64Val_b64Char _ (by omega),
          b64Val_b64Char _ (by omega)]
      simp only [List.cons.injEq, and_true]
      omega
  | case4 a b c rest ih =>
      intro hb
      have ha : a < 256 := hb a (by simp)
      have hbb : b < 256 := hb b (by simp)
      have hc : c < 256 := hb c (by simp)
      have hrest : ∀ x ∈ rest, x < 256 := fun x hx => hb x (by simp [hx])
      rw [base64Encode, base64Decode, if_neg (b64Char_ne_eqSign _),
          if_neg (b64Char_ne_eqSign _),
          b64Val_b64Char _ (by omega), b64Val_b64Char _ (by omega),
          b64Val_b64Char _ (by omega), b64Val_b64Char _ (by omega), ih hrest]
      simp only [List.cons.injEq, and_true]
      refine ⟨by omega, by omega, by omega⟩

theorem jsSplitAux_no_sep (sep : Char) :
    ∀ (s acc : List Char), sep ∉ s → jsSplitAux sep s acc = [acc.reverse ++ s] := by
  intro s
  induction s with
  | nil => intro acc _; simp [jsSplitAux]
  | cons c rest ih =>
      intro acc h
      have hc : c ≠ sep := fun hcs => h (by simp [hcs])
      have hrest : sep ∉ rest := fun hm => h (by simp [hm])
      simp [jsSplitAux, hc, ih _ hrest]

theorem jsSplitAux_append_sep (sep : Char) :
    ∀ (a b acc : List Char), sep ∉ a →
      jsSplitAux sep (a ++ sep :: b) acc = (acc.reverse ++ a) :: jsSplitAux sep b [] := by
  intro a
  induction a with
  | nil => intro b acc _; simp [jsSplitAux]
  | cons c rest ih =>
      intro b acc h
      have hc : c ≠ sep := fun hcs => h (by simp [hcs])
      have hrest : sep ∉ rest := fun hm => h (by simp [hm])
      rw [List.cons_append]
      show (if c = sep then acc.reverse :: jsSplitAux sep (rest ++ sep :: b) []
            else jsSplitAux sep (rest ++ sep :: b) (c :: acc)) = _
      rw [if_neg hc, ih _ _ hrest]
      simp

/-- Splitting a string of the shape `a ++ sep ++ b`, with the separator absent
from both halves, yields exactly the two halves. -/
theorem jsSplitChar_two_fields (sep : Char) (a b : List Char)
    (ha : sep ∉ a) (hb : sep ∉ b) :
    jsSplitChar sep (a ++ sep :: b) = [a, b] := by
  unfold jsSplitChar
  rw [jsSplitAux_append_sep sep a b [] ha]
  simp [jsSplitAux_no_sep sep b [] hb]

/-! ## Poll-loop lemmas -/

/-- A loop entered on a `done` snapshot stops at once: no events, no fetch,
for any oracle and any fuel. -/
theorem pollLoop_done (fuel : Nat) (op : Operation)
    (polls : Nat → Except String Operation) (n : Nat) (h : op.done = true) :
    pollLoop fuel op polls n = ([], .finished op) := by
  cases fuel <;> simp [pollLoop, h]

/-- A run of the poll loop that finishes emits exactly the checking
messages `n+1, n+2, …` (consecutive attempts), and its final snapshot is
`done`. -/
theorem pollLoop_finished_progress :
    ∀ (fuel : Nat) (op : Operation) (polls : Nat → Except String Operation)
      (n : Nat) (evs : List Event) (opF : Operation),
      pollLoop fuel op polls n = (evs, .finished opF) →
      ∃ k, progressOf evs = checkList (n + 1) k ∧ opF.done = true := by
  intro fuel
  induction fuel with
  | zero =>
      intro op polls n evs opF h
      by_cases hd : op.done
      · rw [pollLoop_done 0 op polls n hd] at h
        simp only [Prod.mk.injEq, PollResult.finished.injEq] at h
        obtain ⟨h1, h2⟩ := h
        exact ⟨0, by simp [← h1, progressOf, checkList], by rw [← h2]; exact hd⟩
      · simp only [Bool.not_eq_true] at hd
        simp [pollLoop, hd] at h
  | succ f ih =>
      intro op polls n evs opF h
      by_cases hd : op.done
      · rw [pollLoop_done (f + 1) op polls n hd] at h
        simp only [Prod.mk.injEq, PollResult.finished.injEq] at h
        obtain ⟨h1, h2⟩ := h
        exact ⟨0, by simp [← h1, progressOf, checkList], by rw [← h2]; exact hd⟩
      · simp only [Bool.not_eq_true] at hd
        simp only [pollLoop, hd, Bool.false_eq_true, if_false] at h
        cases hp : polls n with
        | error m => simp only [hp, Prod.mk.injEq] at h; simp at h
        | ok op2 =>
            simp only [hp, Prod.mk.injEq] at h
            obtain ⟨h1, h2⟩ := h
            obtain ⟨k, hk, hdone⟩ := ih op2 polls (n + 1)
              (pollLoop f op2 polls (n + 1)).1 opF (by rw [← h2])
            refine ⟨k + 1, ?_, hdone⟩
            rw [← h1]
            simpa [progressOf, checkList] using hk

/-! ## Claim theorems -/

/-- Claim C1: poll-loop invariant of `generateVideo`.  If the current
snapshot has `done = false` (and the model's fuel has not run out, fuel
exhaustion being a modelling artifact for a still-running loop), another
status re-fetch (`getVideosOperation` call) occurs, preceded by its
checking message; once a snapshot with `done = true` is observed, the loop
returns immediately and no further re-fetch is ever issued, whatever the
oracle or remaining fuel. -/
theorem c1_poll_loop_invariant (fuel : Nat) (op : Operation)
    (polls : Nat → Except String Operation) (n : Nat) :
    (op.done = true → pollLoop fuel op polls n = ([], .finished op)) ∧
    (op.done = false → 0 < fuel →
      ∃ rest, (pollLoop fuel op polls n).1 =
        Event.progress (.checking (n + 1)) :: Event.netCall .getVideosOperation :: rest) := by
  constructor
  · exact pollLoop_done fuel op polls n
  · intro hd hf
    cases fuel with
    | zero => exact absurd hf (by omega)
    | succ f =>
        simp only [pollLoop, hd, Bool.false_eq_true, if_false]
        cases hp : polls n with
        | error m => exact ⟨[], by simp⟩
        | ok op2 => exact ⟨(pollLoop f op2 polls (n + 1)).1, by simp⟩

/-- Witness for C1: both halves at concrete inputs — a `done` snapshot
stops the loop with no fetch, and a not-`done` snapshot leads to a
re-fetch. -/
theorem c1_witness :
    pollLoop 3 ⟨true, none⟩ (fun _ => .ok ⟨true, none⟩) 0 = ([], .finished ⟨true, none⟩) ∧
    ∃ rest, (pollLoop 3 ⟨false, none⟩ (fun _ => .ok ⟨true, none⟩) 0).1 =
      Event.progress (.checking 1) :: Event.netCall .getVideosOperation :: rest :=
  ⟨(c1_poll_loop_invariant 3 ⟨true, none⟩ (fun _ => .ok ⟨true, none⟩) 0).1 rfl,
   (c1_poll_loop_invariant 3 ⟨false, none⟩ (fun _ => .ok ⟨true, none⟩) 0).2 rfl (by omega)⟩

/-- Claim C7: a failed submission or a failed poll call propagates its
error to the caller immediately, abandoning the loop with no retry.  When
submission fails, the whole trace is fixed and contains zero
checking-status messages and zero status re-fetches; when the `n`-th poll
call fails, that iteration's checking message and fetch are the loop's
only remaining events and the loop ends in `failed`; lifted to
`generateVideo`, a first-poll failure yields the remote error. -/
theorem c7_failure_propagates (fuel f : Nat) (env : GenEnv) (key : String)
    (p q : InlinePayload) (m : String)
    (hk : env.apiKey = some key)
    (h1 : fileToGenerativePart env.startType env.startOutcome = .ok p)
    (h2 : fileToGenerativePart env.endType env.endOutcome = .ok q) :
    (env.submitResult = .error m →
      generateVideo fuel env =
        ([.progress .preparing, .readFile "start", .readFile "end",
          .progress .initiating, .netCall .generateVideos], .err (.remote m))) ∧
    (∀ (op : Operation) (polls : Nat → Except String Operation) (n : Nat),
      op.done = false → polls n = .error m →
      pollLoop (f + 1) op polls n =
        ([.progress (.checking (n + 1)), .netCall .getVideosOperation], .failed m)) ∧
    (∀ op0 : Operation, env.submitResult = .ok op0 → op0.done = false →
      env.polls 0 = .error m → (generateVideo (f + 1) env).2 = .err (.remote m)) := by
  refine ⟨fun hs => ?_, fun op polls n hd hp => ?_, fun op0 hs hd hp => ?_⟩
  · simp [generateVideo, hk, h1, h2, hs]
  · simp [pollLoop, hd, hp]
  · simp [generateVideo, hk, h1, h2, hs, pollLoop, hd, hp]

/-- Witness for C7: concrete runs — a failed submission propagates with no
checking message, and a failed first poll propagates out of
`generateVideo`. -/
theorem c7_witness :
    generateVideo 1 c7SubmitFailEnv =
      ([.progress .preparing, .readFile "start", .readFile "end",
        .progress .initiating, .netCall .generateVideos], .err (.remote "boom")) ∧
    pollLoop 1 ⟨false, none⟩ (fun _ => .error "poll down") 0 =
      ([.progress (.checking 1), .netCall .getVideosOperation], .failed "poll down") ∧
    (generateVideo 1 c7PollFailEnv).2 = .err (.remote "poll down") :=
  ⟨(c7_failure_propagates 1 0 c7SubmitFailEnv "k" ⟨some "a".toList, "image/png"⟩
      ⟨some "b".toList, "image/png"⟩ "boom" rfl rfl rfl).1 rfl,
   (c7_failure_propagates 1 0 c7PollFailEnv "k" ⟨some "a".toList, "image/png"⟩
      ⟨some "b".toList, "image/png"⟩ "poll down" rfl rfl rfl).2.1
      ⟨false, none⟩ (fun _ => .error "poll down") 0 rfl rfl,
   (c7_failure_propagates 1 0 c7PollFailEnv "k" ⟨some "a".toList, "image/png"⟩
      ⟨some "b".toList, "image/png"⟩ "poll down" rfl rfl rfl).2.2
      ⟨false, none⟩ rfl rfl rfl⟩

/-- Claim C2: every run of `generateVideo` that reaches completion (it
returns a URL, or fails only at link extraction after the job was done)
emits its progress messages in the fixed order: preparing, initiating,
in-progress, then `k ≥ 0` checking messages with attempts `1, 2, …, k`
(strictly increasing from 1), then finalizing — each non-poll message
exactly once. -/
theorem c2_progress_order (fuel : Nat) (env : GenEnv)
    (h : (∃ u, (generateVideo fuel env).2 = .ok u) ∨
         (generateVideo fuel env).2 = .err .noVideoLink) :
    ∃ k, progressOf (generateVideo fuel env).1 =
      .preparing :: .initiating :: .inProgress :: (checkList 1 k ++ [.finalizing]) := by
  cases hk : env.apiKey with
  | none => simp [generateVideo, hk] at h
  | some key =>
    cases h1 : fileToGenerativePart env.startType env.startOutcome with
    | error e1 => simp [generateVideo, hk, h1] at h
    | ok p =>
      cases h2 : fileToGenerativePart env.endType env.endOutcome with
      | error e2 => simp [generateVideo, hk, h1, h2] at h
      | ok q =>
        cases hs : env.submitResult with
        | error m => simp [generateVideo, hk, h1, h2, hs] at h
        | ok op0 =>
          rcases hp : pollLoop fuel op0 env.polls 0 with ⟨pevs, pres⟩
          cases pres with
          | outOfFuel => simp [generateVideo, hk, h1, h2, hs, hp] at h
          | failed m => simp [generateVideo, hk, h1, h2, hs, hp] at h
          | finished opF =>
            obtain ⟨k, hck, hdone⟩ :=
              pollLoop_finished_progress fuel op0 env.polls 0 pevs opF hp
            refine ⟨k, ?_⟩
            cases hd : downloadLink opF with
            | none =>
                simp [generateVideo, hk, h1, h2, hs, hp, hd, progressOf,
                      List.filterMap_append] at hck ⊢
                simpa using hck
            | some u =>
                by_cases hu : u = "" <;>
                  · simp [generateVideo, hk, h1, h2, hs, hp, hd, hu, progressOf,
                          List.filterMap_append] at hck ⊢
                    simpa using hck

/-- Witness for C2: a concrete completing run (the C3 scenario) has the
stated progress-message order. -/
theorem c2_witness :
    ∃ k, progressOf (generateVideo 2 (c3Env "https://example/video123" "key1")).1 =
      .preparing :: .initiating :: .inProgress :: (checkList 1 k ++ [.finalizing]) :=
  c2_progress_order 2 (c3Env "https://example/video123" "key1")
    (.inl ⟨"https://example/video123&key=key1", by rfl⟩)

/-- Claim C3: with the remote reporting `done = false` twice (the
submission snapshot and the first re-fetch) and then `done = true` with
`generatedVideos[0].video.uri = u`, `generateVideo` returns
`u ++ "&key=" ++ key` and emits exactly two checking messages, attempts 1
and 2.  (`u ≠ ""`: the empty string is not a URI — the source's falsy
check `if (!downloadLink)` would treat it as missing.) -/
theorem c3_two_polls_scenario (u key : String) (hu : u ≠ "") :
    (generateVideo 2 (c3Env u key)).2 = .ok (u ++ "&key=" ++ key) ∧
    progressOf (generateVideo 2 (c3Env u key)).1 =
      [.preparing, .initiating, .inProgress, .checking 1, .checking 2, .finalizing] := by
  constructor <;>
    simp [generateVideo, c3Env, doneOpWith, fileToGenerativePart, pollLoop,
          downloadLink, progressOf, hu]

/-- Witness for C3: the spec's scenario values. -/
theorem c3_witness :
    (generateVideo 2 (c3Env "https://example/video123" "key1")).2 =
      .ok ("https://example/video123" ++ "&key=" ++ "key1") ∧
    progressOf (generateVideo 2 (c3Env "https://example/video123" "key1")).1 =
      [.preparing, .initiating, .inProgress, .checking 1, .checking 2, .finalizing] :=
  c3_two_polls_scenario "https://example/video123" "key1" (by decide)

/-- Claim C4: with no credential configured, both `editImage` and
`generateVideo` fail with the authentication error and their traces are
empty — zero file reads and zero network calls ever happen. -/
theorem c4_no_credential (fuel : Nat) (genv : GenEnv) (eenv : EditEnv)
    (hg : genv.apiKey = none) (he : eenv.apiKey = none) :
    generateVideo fuel genv = ([], .err .auth) ∧
    editImage eenv = ([], .error .auth) := by
  constructor
  · simp [generateVideo, hg]
  · simp [editImage, he]

/-- Witness for C4: concrete credential-less environments. -/
theorem c4_witness :
    generateVideo 1 noKeyGenEnv = ([], .err .auth) ∧
    editImage noKeyEditEnv = ([], .error .auth) :=
  c4_no_credential 1 noKeyGenEnv noKeyEditEnv rfl rfl

/-- Claim C5 counterexample: in `c5Resp` a part of the response (in its
second candidate) carries inline image data `"IMG"`, yet `editImage`
fails with the no-image-data error instead of returning it — the claim's
"some part of the response" half is false because the code scans only the
first candidate. -/
theorem c5_counterexample :
    firstInlineData (allParts c5Resp) = some "IMG" ∧
    (editImage c5Env).2 = .error .noImageData ∧
    (Except.error SvcError.noImageData : Except SvcError String) ≠ .ok "IMG" := by
  refine ⟨rfl, rfl, by simp⟩

/-- Claim C5 as amended: restricted to the parts of the response's first
candidate (and to responses having at least one candidate): if no part of
the first candidate carries inline data, `editImage` fails with the
no-image-data error and returns no value; otherwise the data of the first
such part is returned. -/
theorem c5_first_candidate_parts (env : EditEnv) (key : String)
    (part : InlinePayload) (resp : GenContentResponse)
    (c : Candidate) (cs : List Candidate)
    (hk : env.apiKey = some key)
    (himg : fileToGenerativePart env.imageType env.imageOutcome = .ok part)
    (hc : env.callResult = .ok resp)
    (hcand : resp.candidates = some (c :: cs)) :
    (firstInlineData c.content.parts = none →
      (editImage env).2 = .error .noImageData ∧ ∀ d, (editImage env).2 ≠ .ok d) ∧
    (∀ d, firstInlineData c.content.parts = some d → (editImage env).2 = .ok d) := by
  constructor
  · intro hfi
    constructor <;> simp [editImage, hk, himg, hc, hcand, hfi]
  · intro d hfi
    simp [editImage, hk, himg, hc, hcand, hfi]

/-- Witness for the amended C5: both branches at concrete responses. -/
theorem c5_witness :
    ((editImage (editEnvWith twoCandResp)).2 = .error .noImageData ∧
      ∀ d, (editImage (editEnvWith twoCandResp)).2 ≠ .ok d) ∧
    (editImage (editEnvWith ⟨some [⟨⟨[⟨some "PIX"⟩]⟩⟩]⟩)).2 = .ok "PIX" :=
  ⟨(c5_first_candidate_parts (editEnvWith twoCandResp) "k"
      ⟨some "a".toList, "image/png"⟩ twoCandResp ⟨⟨[⟨none⟩]⟩⟩ [⟨⟨[⟨some "LATER"⟩]⟩⟩]
      rfl rfl rfl rfl).1 rfl,
   (c5_first_candidate_parts (editEnvWith ⟨some [⟨⟨[⟨some "PIX"⟩]⟩⟩]⟩) "k"
      ⟨some "a".toList, "image/png"⟩ ⟨some [⟨⟨[⟨some "PIX"⟩]⟩⟩]⟩ ⟨⟨[⟨some "PIX"⟩]⟩⟩ []
      rfl rfl rfl rfl).2 "PIX" rfl⟩

/-- Claim C6: a run whose poll phase finishes on a `done` snapshot with no
extractable download link fails with the no-result error, and that failure
comes after the finalizing progress message — the trace's last event is
the finalizing message. -/
theorem c6_done_without_link (fuel : Nat) (env : GenEnv) (key : String)
    (p q : InlinePayload) (op0 opF : Operation) (pevs : List Event)
    (hk : env.apiKey = some key)
    (h1 : fileToGenerativePart env.startType env.startOutcome = .ok p)
    (h2 : fileToGenerativePart env.endType env.endOutcome = .ok q)
    (hs : env.submitResult = .ok op0)
    (hp : pollLoop fuel op0 env.polls 0 = (pevs, .finished opF))
    (hl : downloadLink opF = none) :
    (generateVideo fuel env).2 = .err .noVideoLink ∧
    (generateVideo fuel env).1.getLast? = some (.progress .finalizing) := by
  constructor
  · simp [generateVideo, hk, h1, h2, hs, hp, hl]
  · simp only [generateVideo, hk, h1, h2, hs, hp, hl]
    simp only [List.append_assoc, List.cons_append, List.nil_append]
    rw [← List.cons_append, ← List.cons_append, ← List.cons_append,
        ← List.cons_append, ← List.cons_append, ← List.cons_append,
        List.getLast?_concat]

/-- Witness for C6: a submission snapshot already done with no response. -/
theorem c6_witness :
    (generateVideo 1 c6Env).2 = .err .noVideoLink ∧
    (generateVideo 1 c6Env).1.getLast? = some (.progress .finalizing) :=
  c6_done_without_link 1 c6Env "k" ⟨some "a".toList, "image/png"⟩
    ⟨some "b".toList, "image/png"⟩ ⟨true, none⟩ ⟨true, none⟩ []
    rfl rfl rfl rfl rfl rfl

/-- Claim C8: for every valid file (bytes below 256, declared type free of
commas), the encoder produces a payload whose `mimeType` is the declared
type verbatim and whose `data` is the base64 encoding of the bytes;
decoding that data reproduces the original bytes exactly. -/
theorem c8_encoder_roundtrip (bytes : List Nat) (fileType : String)
    (hb : ∀ x ∈ bytes, x < 256) (ht : ',' ∉ fileType.toList) :
    fileToGenerativePart fileType (readAsDataURL bytes fileType) =
      .ok ⟨some (base64Encode bytes), fileType⟩ ∧
    base64Decode (base64Encode bytes) = bytes := by
  constructor
  · have hmem : ',' ∉ ("data:".toList ++ fileType.toList ++ ";base64".toList) := by
      intro h
      rcases List.mem_append.1 h with h | h
      · rcases List.mem_append.1 h with h | h
        · exact absurd h (by decide)
        · exact ht h
      · exact absurd h (by decide)
    simp only [readAsDataURL, fileToGenerativePart]
    rw [jsSplitChar_two_fields ',' _ _ hmem (comma_not_mem_base64Encode bytes)]
    rfl
  · exact base64_roundtrip bytes hb

/-- Witness for C8: the bytes `[1, 2, 3]` of an `image/png` file. -/
theorem c8_witness :
    fileToGenerativePart "image/png" (readAsDataURL [1, 2, 3] "image/png") =
      .ok ⟨some (base64Encode [1, 2, 3]), "image/png"⟩ ∧
    base64Decode (base64Encode [1, 2, 3]) = [1, 2, 3] :=
  c8_encoder_roundtrip [1, 2, 3] "image/png" (by decide) (by decide)

/-- Claim C9: `editImage` inspects only the first candidate's parts.  With
an absent or empty candidates list the run fails with the unguarded
dereference (`typeError`), a failure other than the no-image-data error;
with a first candidate carrying no inline data it fails with the
no-image-data error and never returns an image, whatever later candidates
contain. -/
theorem c9_only_first_candidate (env : EditEnv) (key : String)
    (part : InlinePayload) (resp : GenContentResponse)
    (hk : env.apiKey = some key)
    (himg : fileToGenerativePart env.imageType env.imageOutcome = .ok part)
    (hc : env.callResult = .ok resp) :
    ((resp.candidates = none ∨ resp.candidates = some []) →
      (editImage env).2 = .error .typeError ∧
      (editImage env).2 ≠ .error .noImageData) ∧
    (∀ c cs, resp.candidates = some (c :: cs) →
      firstInlineData c.content.parts = none →
      (editImage env).2 = .error .noImageData ∧ ∀ d, (editImage env).2 ≠ .ok d) := by
  constructor
  · rintro (hcand | hcand) <;>
      · constructor <;> simp [editImage, hk, himg, hc, hcand]
  · intro c cs hcand hfi
    constructor <;> simp [editImage, hk, himg, hc, hcand, hfi]

/-- Witness for C9: the empty-candidates crash and the
first-candidate-only scan, at concrete responses. -/
theorem c9_witness :
    ((editImage (editEnvWith emptyCandResp)).2 = .error .typeError ∧
      (editImage (editEnvWith emptyCandResp)).2 ≠ .error .noImageData) ∧
    ((editImage (editEnvWith twoCandResp)).2 = .error .noImageData ∧
      ∀ d, (editImage (editEnvWith twoCandResp)).2 ≠ .ok d) :=
  ⟨(c9_only_first_candidate (editEnvWith emptyCandResp) "k"
      ⟨some "a".toList, "image/png"⟩ emptyCandResp rfl rfl rfl).1 (.inr rfl),
   (c9_only_first_candidate (editEnvWith twoCandResp) "k"
      ⟨some "a".toList, "image/png"⟩ twoCandResp rfl rfl rfl).2
      ⟨⟨[⟨none⟩]⟩⟩ [⟨⟨[⟨some "LATER"⟩]⟩⟩] rfl rfl⟩

/-- Claim C10 counterexample: on the reader result `"x,y,z"` the encoder
resolves with `split(',')[1] = "y"`, the field between the first and
second commas, not the substring after the first comma (`"y,z"` per
`specAfterFirstComma`), so the claim's "substring after the first comma"
is false as stated. -/
theorem c10_counterexample :
    fileToGenerativePart "image/png" (.loaded (some "x,y,z".toList)) =
      .ok ⟨some "y".toList, "image/png"⟩ ∧
    specAfterFirstComma "x,y,z".toList = some "y,z".toList ∧
    some "y".toList ≠ some "y,z".toList := by
  refine ⟨rfl, rfl, by decide⟩

/-- Claim C10 as amended: the encoder's all-or-nothing failure covers only
a failing read or a non-string reader result; every string reader result
resolves successfully with `data = split(',')[1]` — the second
comma-separated field — and a string with no comma resolves with an absent
`data` rather than an error. -/
theorem c10_string_results_resolve (fileType : String) (s : List Char) :
    fileToGenerativePart fileType (.loaded (some s)) =
      .ok ⟨(jsSplitChar ',' s)[1]?, fileType⟩ ∧
    (',' ∉ s →
      fileToGenerativePart fileType (.loaded (some s)) = .ok ⟨none, fileType⟩) ∧
    (fileToGenerativePart fileType .errored = .error "reader error") ∧
    (fileToGenerativePart fileType (.loaded none) =
      .error "Failed to read file as base64 string.") := by
  refine ⟨rfl, fun hs => ?_, rfl, rfl⟩
  simp only [fileToGenerativePart]
  unfold jsSplitChar
  rw [jsSplitAux_no_sep ',' s [] hs]
  rfl

/-- Witness for the amended C10: a comma-free reader result resolves with
an absent data field. -/
theorem c10_witness :
    fileToGenerativePart "image/png" (.loaded (some "nocomma".toList)) =
      .ok ⟨none, "image/png"⟩ :=
  (c10_string_results_resolve "image/png" "nocomma".toList).2.1 (by decide)

end GeminiService

